import Mathlib

/-!
Verification of the rust-transcoder service core: the request model and its
validation, the filter-chain compiler, the transcode profile and its FFmpeg
argument vector, the error-to-HTTP mapping, and the admission-gated request
handler.

Rust `f32` values are modelled by `F32`: either NaN or an exact rational.
Every arithmetic operation the transcoder performs on `f32` (multiply or
divide by two, subtract one in the vicinity of one, compare against a
constant, max/min) is exact in IEEE binary32 on the relevant ranges
(Sterbenz subtraction, scaling by a power of two), so exact rational
arithmetic is a faithful model of those operations; IEEE comparison
semantics (every comparison with NaN is false) and the Rust `max`/`min`
NaN behaviour (return the other operand) are reproduced directly.
Rational arithmetic is implemented on numerator and denominator via
`Rat.divInt` so that every definition evaluates inside the kernel.
-/

/-- Model of Rust `f32`: NaN, or a finite value as an exact rational. -/
inductive F32 where
  | nan : F32
  | num (q : ℚ) : F32
deriving DecidableEq, Repr

namespace F32

/-- IEEE `<`: any comparison involving NaN is false. -/
def lt : F32 → F32 → Bool
  | .num a, .num b => decide (a < b)
  | _, _ => false

/-- IEEE `>`: any comparison involving NaN is false. -/
def gt (a b : F32) : Bool := lt b a

/-- Kernel-computable rational multiplication (numerator/denominator form). -/
def qmul (a b : ℚ) : ℚ := Rat.divInt (a.num * b.num) (a.den * b.den)

/-- Kernel-computable rational subtraction (numerator/denominator form). -/
def qsub (a b : ℚ) : ℚ := Rat.divInt (a.num * b.den - b.num * a.den) (a.den * b.den)

/-- Kernel-computable rational division (numerator/denominator form). -/
def qdiv (a b : ℚ) : ℚ := Rat.divInt (a.num * b.den) (b.num * a.den)

/-- Multiplication; NaN propagates as in IEEE. -/
def mul : F32 → F32 → F32
  | .num a, .num b => .num (qmul a b)
  | _, _ => .nan

/-- Subtraction; NaN propagates as in IEEE. -/
def sub : F32 → F32 → F32
  | .num a, .num b => .num (qsub a b)
  | _, _ => .nan

/-- Division; NaN propagates as in IEEE (only ever used with divisor 2). -/
def div : F32 → F32 → F32
  | .num a, .num b => .num (qdiv a b)
  | _, _ => .nan

/-- Absolute value; NaN propagates. -/
def abs : F32 → F32
  | .num a => .num (Rat.divInt |a.num| a.den)
  | .nan => .nan

/-- Rust `f32::max`: returns the other operand when one argument is NaN. -/
def fmax : F32 → F32 → F32
  | .num a, .num b => .num (max a b)
  | .num a, .nan => .num a
  | .nan, .num b => .num b
  | .nan, .nan => .nan

/-- Rust `f32::min`: returns the other operand when one argument is NaN. -/
def fmin : F32 → F32 → F32
  | .num a, .num b => .num (min a b)
  | .num a, .nan => .num a
  | .nan, .num b => .num b
  | .nan, .nan => .nan

end F32

/-- Left-pad the decimal digits of `m` with zeros to width `d`. -/
def padLeft (d : ℕ) (m : ℕ) : String :=
  String.mk (List.replicate (d - (Nat.toDigits 10 m).length) '0' ++ Nat.toDigits 10 m)

/-- Fixed-point decimal rendering of a rational with `d` digits after the
point, rounding to nearest (ties away from zero; Rust's binary formatter
breaks its — unreachable for the values at issue — exact decimal ties to
even instead). Models Rust format specifiers of the shape `.d`. -/
def fmtQ (d : ℕ) (q : ℚ) : String :=
  let r : ℕ := (2 * q.num.natAbs * 10 ^ d + q.den) / (2 * q.den)
  (if q.num < 0 then "-" else "") ++ Nat.repr (r / 10 ^ d) ++ "." ++ padLeft d (r % 10 ^ d)

/-- Rendering of an `F32` with `d` digits after the point; Rust prints NaN
as the three characters NaN. -/
def F32.fmt (d : ℕ) : F32 → String
  | .nan => "NaN"
  | .num q => fmtQ d q

/-- Closed set of output container formats (`AudioFormat` in enums.rs). -/
inductive AudioFormat where
  | opus | mp3 | aac | pcm | wav | flac
deriving DecidableEq, Repr

/-- MIME content type of a container (`AudioFormat::content_type`). -/
def AudioFormat.content_type : AudioFormat → String
  | .opus => "audio/ogg"
  | .mp3 => "audio/mpeg"
  | .aac => "audio/aac"
  | .pcm => "audio/pcm"
  | .wav => "audio/wav"
  | .flac => "audio/flac"

/-- Display name of a container (`impl fmt::Display for AudioFormat`). -/
def AudioFormat.display : AudioFormat → String
  | .opus => "opus"
  | .mp3 => "mp3"
  | .aac => "aac"
  | .pcm => "pcm"
  | .wav => "wav"
  | .flac => "flac"

/-- FFmpeg muxer name of a container (`AudioFormat::ffmpeg_format`). -/
def AudioFormat.ffmpeg_format : AudioFormat → String
  | .opus => "ogg"
  | .mp3 => "mp3"
  | .aac => "adts"
  | .pcm => "s16le"
  | .wav => "wav"
  | .flac => "flac"

/-- Closed set of audio codecs (`AudioCodec` in enums.rs). -/
inductive AudioCodec where
  | libopus | libmp3lame | aac | pcmS16le | flac
deriving DecidableEq, Repr

/-- FFmpeg encoder name of a codec (`AudioCodec::ffmpeg_codec`). -/
def AudioCodec.ffmpeg_codec : AudioCodec → String
  | .libopus => "libopus"
  | .libmp3lame => "libmp3lame"
  | .aac => "aac"
  | .pcmS16le => "pcm_s16le"
  | .flac => "flac"

/-- Quality tiers (`AudioQuality` in enums.rs). -/
inductive AudioQuality where
  | low | medium | high | lossless
deriving DecidableEq, Repr

/-- Default bitrate table (`AudioQuality::bitrate_for_codec`); 0 for the
PCM and FLAC codecs, to which a bitrate does not apply. -/
def AudioQuality.bitrate_for_codec : AudioQuality → AudioCodec → ℕ
  | .low, .libopus => 32
  | .medium, .libopus => 64
  | .high, .libopus => 128
  | .lossless, .libopus => 256
  | .low, .libmp3lame => 64
  | .medium, .libmp3lame => 128
  | .high, .libmp3lame => 192
  | .lossless, .libmp3lame => 320
  | .low, .aac => 48
  | .medium, .aac => 96
  | .high, .aac => 160
  | .lossless, .aac => 256
  | _, .pcmS16le => 0
  | _, .flac => 0

/-- Default sample rate per quality tier (`AudioQuality::sample_rate`). -/
def AudioQuality.sample_rate : AudioQuality → ℕ
  | .low => 24000
  | .medium => 44100
  | .high => 48000
  | .lossless => 48000

/-- Equalizer presets (`EqPreset` in enums.rs). -/
inductive EqPreset where
  | flat | bassBoost | voice | treble
deriving DecidableEq, Repr

namespace filters

/-- Fade-in filter string (`filters::fade_in`). -/
def fade_in (duration : F32) : String :=
  "afade=t=in:st=0:d=" ++ duration.fmt 2

/-- Fade-out filter string (`filters::fade_out`). -/
def fade_out (start duration : F32) : String :=
  "afade=t=out:st=" ++ start.fmt 2 ++ ":d=" ++ duration.fmt 2

/-- Loudness-normalization filter string (`filters::loudnorm`). -/
def loudnorm (target_lufs : F32) : String :=
  "loudnorm=I=" ++ target_lufs.fmt 1 ++ ":TP=-1.5:LRA=11:print_format=none"

/-- Volume filter string from a decibel change (`filters::volume`). -/
def volume (db : F32) : String :=
  "volume=" ++ db.fmt 1 ++ "dB"

/-- High-pass filter string (`filters::highpass`). -/
def highpass (frequency : ℕ) : String :=
  "highpass=f=" ++ Nat.repr frequency

/-- Equalizer filter string (`filters::equalizer`). -/
def equalizer (frequency : ℕ) (width_type : Char) (width gain : F32) : String :=
  "equalizer=f=" ++ Nat.repr frequency ++ ":width_type=" ++ String.mk [width_type]
    ++ ":width=" ++ width.fmt 2 ++ ":g=" ++ gain.fmt 1

/-- Tempo filter string (`filters::tempo`): atempo supports only the ratio
range 0.5 to 2.0, so factors outside it are decomposed into two chained
stages. -/
def tempo (factor : F32) : String :=
  if factor.lt (.num (mkRat 1 2)) then
    "atempo=0.5,atempo=" ++ ((factor.mul (.num 2)).fmax (.num (mkRat 1 2))).fmt 4
  else if factor.gt (.num 2) then
    "atempo=2.0,atempo=" ++ ((factor.div (.num 2)).fmin (.num 2)).fmt 4
  else
    "atempo=" ++ factor.fmt 4

/-- Comma join of a list of filter strings (`joinComma l` models
`l.join(",")` on a Rust `Vec<String>`). -/
def joinComma : List String → String
  | [] => ""
  | [s] => s
  | s :: rest => s ++ "," ++ joinComma rest

/-- Filter chaining (`filters::chain`): empty sub-expressions are dropped,
the rest joined with commas. -/
def chain (fs : List String) : String :=
  joinComma (fs.filter (fun f => f ≠ ""))

/-- EQ preset compilation (`filters::eq_preset_to_filter`); flat compiles
to the empty string. -/
def eq_preset_to_filter : EqPreset → String
  | .flat => ""
  | .bassBoost => equalizer 100 'o' (.num 1) (.num 6)
  | .voice => chain [highpass 80, equalizer 3000 'o' (.num 1) (.num 3)]
  | .treble => equalizer 8000 'o' (.num (mkRat 3 2)) (.num 4)

/-- Volume filter from a multiplicative factor
(`filters::volume_factor`): unity gain (within 0.001) compiles to the
empty string, otherwise the factor is converted to decibels. The base-10
logarithm is an opaque foreign intrinsic, passed in as `lg`. -/
def volume_factor (lg : F32 → F32) (factor : F32) : String :=
  if ((factor.sub (.num 1)).abs).lt (.num (mkRat 1 1000)) then ""
  else volume ((F32.num 20).mul (lg factor))

/-- The vector of effect filters assembled by
`filters::build_audio_filter_chain` before joining: EQ first, then tempo,
then volume, each pushed only when applicable. -/
def chainParts (lg : F32 → F32) (eq_preset : Option EqPreset)
    (speed volume_level : Option F32) : List String := Id.run do
  let mut fs : List String := []
  match eq_preset with
  | some preset =>
    let eq_filter := eq_preset_to_filter preset
    if eq_filter ≠ "" then
      fs := fs ++ [eq_filter]
  | none => pure ()
  match speed with
  | some s =>
    if ((s.sub (.num 1)).abs).gt (.num (mkRat 1 1000)) then
      fs := fs ++ [tempo s]
  | none => pure ()
  match volume_level with
  | some v =>
    let vol_filter := volume_factor lg v
    if vol_filter ≠ "" then
      fs := fs ++ [vol_filter]
  | none => pure ()
  return fs

/-- Full effect chain (`filters::build_audio_filter_chain`). -/
def build_audio_filter_chain (lg : F32 → F32) (eq_preset : Option EqPreset)
    (speed volume_level : Option F32) : String :=
  chain (chainParts lg eq_preset speed volume_level)

end filters

/-- Optional audio effects of a request (`AudioFilters` in transcode.rs). -/
structure AudioFilters where
  eq_preset : Option EqPreset
  speed : Option F32
  volume : Option F32
deriving DecidableEq, Repr

/-- Effect validation (`AudioFilters::validate`): speed in 0.5 to 2.0 and
volume in 0.0 to 2.0, each checked only when present, with IEEE
comparisons. -/
def AudioFilters.validate (f : AudioFilters) : Except String Unit :=
  if (match f.speed with
      | some s => s.lt (.num (mkRat 1 2)) || s.gt (.num 2)
      | none => false) then
    .error "speed must be between 0.5 and 2.0"
  else if (match f.volume with
      | some v => v.lt (.num 0) || v.gt (.num 2)
      | none => false) then
    .error "volume must be between 0.0 and 2.0"
  else
    .ok ()

/-- True when any effect field is present (`AudioFilters::has_filters`). -/
def AudioFilters.has_filters (f : AudioFilters) : Bool :=
  f.eq_preset.isSome || f.speed.isSome || f.volume.isSome

/-- Raw transcode request (`TranscodeRequest` in transcode.rs). -/
structure TranscodeRequest where
  source_url : String
  format : AudioFormat
  output_format : Option String
  codec : AudioCodec
  quality : AudioQuality
  bitrate : Option ℕ
  sample_rate : Option ℕ
  channels : Option ℕ
  audio_filters : Option AudioFilters
  normalize : Bool
  target_loudness : F32
  fade_in : Option F32
  fade_out : Option F32
deriving DecidableEq, Repr

/-- Checks of `TranscodeRequest::validate` that follow the nested
`audio_filters` validation: fade_in, fade_out, target_loudness. -/
def TranscodeRequest.validateTail (r : TranscodeRequest) : Except String Unit :=
  if (match r.fade_in with
      | some fade => fade.lt (.num 0) || fade.gt (.num 30)
      | none => false) then
    .error "fade_in must be between 0 and 30 seconds"
  else if (match r.fade_out with
      | some fade => fade.lt (.num 0) || fade.gt (.num 30)
      | none => false) then
    .error "fade_out must be between 0 and 30 seconds"
  else if r.target_loudness.lt (.num (-70)) || r.target_loudness.gt (.num 0) then
    .error "target_loudness must be between -70 and 0 LUFS"
  else
    .ok ()

/-- Request validation (`TranscodeRequest::validate`), with the source's
check order and early returns. -/
def TranscodeRequest.validate (r : TranscodeRequest) : Except String Unit :=
  if r.source_url = "" then
    .error "source_url is required"
  else if (match r.bitrate with
      | some bitrate => decide (bitrate < 8) || decide (512 < bitrate)
      | none => false) then
    .error "bitrate must be between 8 and 512 kbps"
  else if (match r.sample_rate with
      | some sr => !([8000, 12000, 16000, 24000, 44100, 48000, 96000].contains sr)
      | none => false) then
    .error "sample_rate must be one of: [8000, 12000, 16000, 24000, 44100, 48000, 96000]"
  else if (match r.channels with
      | some ch => decide (ch < 1) || decide (2 < ch)
      | none => false) then
    .error "channels must be 1 (mono) or 2 (stereo)"
  else
    match r.audio_filters with
    | some fs =>
      match fs.validate with
      | .error e => .error e
      | .ok _ => r.validateTail
    | none => r.validateTail

/-- Fully resolved transcode configuration (`TranscodeProfile` in
profiles.rs). -/
structure TranscodeProfile where
  source_url : String
  format : AudioFormat
  codec : AudioCodec
  bitrate : ℕ
  sample_rate : ℕ
  channels : ℕ
  normalize : Bool
  target_loudness : F32
  fade_in : Option F32
  fade_out : Option F32
deriving DecidableEq, Repr

/-- Profile resolution from a request (`TranscodeProfile::from_request`):
bitrate, sample rate and channel count fall back to quality-derived
defaults, everything else is copied. -/
def TranscodeProfile.from_request (req : TranscodeRequest) : TranscodeProfile where
  source_url := req.source_url
  format := req.format
  codec := req.codec
  bitrate := req.bitrate.getD (req.quality.bitrate_for_codec req.codec)
  sample_rate := req.sample_rate.getD req.quality.sample_rate
  channels := req.channels.getD 2
  normalize := req.normalize
  target_loudness := req.target_loudness
  fade_in := req.fade_in
  fade_out := req.fade_out

/-- The filter vector assembled by `TranscodeProfile::build_audio_filters`
before joining: a fade-in when requested, then loudness normalization when
requested; fade-out is left unimplemented in the source. -/
def TranscodeProfile.filterParts (p : TranscodeProfile) : List String := Id.run do
  let mut filter_parts : List String := []
  match p.fade_in with
  | some duration => filter_parts := filter_parts ++ [filters.fade_in duration]
  | none => pure ()
  if p.normalize then
    filter_parts := filter_parts ++ [filters.loudnorm p.target_loudness]
  return filter_parts

/-- Comma-joined profile filter chain
(`TranscodeProfile::build_audio_filters`). -/
def TranscodeProfile.build_audio_filters (p : TranscodeProfile) : String :=
  filters.joinComma p.filterParts

/-- FFmpeg argument vector (`TranscodeProfile::build_ffmpeg_args`). -/
def TranscodeProfile.build_ffmpeg_args (p : TranscodeProfile) : List String := Id.run do
  let mut args : List String := []
  args := args ++ ["-hide_banner", "-loglevel", "warning", "-y"]
  args := args ++ ["-i", p.source_url]
  args := args ++ ["-c:a", p.codec.ffmpeg_codec]
  if 0 < p.bitrate then
    args := args ++ ["-b:a", Nat.repr p.bitrate ++ "k"]
  args := args ++ ["-ar", Nat.repr p.sample_rate]
  args := args ++ ["-ac", Nat.repr p.channels]
  let fs := p.build_audio_filters
  if fs ≠ "" then
    args := args ++ ["-af", fs]
  args := args ++ ["-f", p.format.ffmpeg_format]
  args := args ++ ["pipe:1"]
  return args

/-- Application error taxonomy (`AppError` in error.rs). The payload of
`Io` is the display text of the underlying `io::Error`. -/
inductive AppError where
  | Validation (msg : String)
  | UnsupportedFormat (msg : String)
  | Ffmpeg (msg : String)
  | Io (msg : String)
  | SourceUnavailable (msg : String)
  | ConcurrencyLimitExceeded (limit : ℕ)
  | Timeout (msg : String)
  | FilterInvalid (msg : String)
  | Internal (msg : String)
deriving DecidableEq, Repr

/-- Client-visible error body (`ErrorResponse` in error.rs; the optional
details field is never set on this path). -/
structure ErrorResponse where
  code : String
  message : String
deriving DecidableEq, Repr

/-- HTTP status and body produced from an error
(`impl IntoResponse for AppError`); 5xx-class messages are fixed texts,
the internal detail is only logged. -/
def AppError.into_response : AppError → ℕ × ErrorResponse
  | .Validation msg => (400, ⟨"VALIDATION_ERROR", msg⟩)
  | .UnsupportedFormat msg => (400, ⟨"UNSUPPORTED_FORMAT", msg⟩)
  | .Ffmpeg _ => (500, ⟨"FFMPEG_ERROR", "Transcoding failed"⟩)
  | .Io _ => (500, ⟨"IO_ERROR", "IO operation failed"⟩)
  | .SourceUnavailable msg => (400, ⟨"SOURCE_UNAVAILABLE", msg⟩)
  | .ConcurrencyLimitExceeded limit =>
    (503, ⟨"CONCURRENCY_LIMIT_EXCEEDED",
      "Server is at capacity. Maximum " ++ Nat.repr limit ++ " concurrent streams allowed."⟩)
  | .Timeout msg => (504, ⟨"TIMEOUT", msg⟩)
  | .FilterInvalid msg => (400, ⟨"FILTER_INVALID", msg⟩)
  | .Internal _ => (500, ⟨"INTERNAL_ERROR", "Internal server error"⟩)

/-- Non-blocking semaphore acquisition (`Semaphore::try_acquire` on the
available-permit count): fails when no permit is available, otherwise one
permit is taken. -/
def tryAcquire (avail : ℕ) : Option ℕ :=
  if avail = 0 then none else some (avail - 1)

/-- Initial transcode response body (`TranscodeResponse::new` followed by
`with_message`). -/
structure TranscodeResponse where
  session_id : String
  status : String
  content_type : String
  message : Option String
deriving DecidableEq, Repr

/-- The transcode handler (`transcode_handler` in api/transcode.rs),
modelled as a sequential transition on the semaphore's available-permit
count: validate, try to acquire a permit, compile the effect chain and
response headers, drop the permit, answer. The body has no suspension
point between acquisition and drop; the randomly generated session id is
passed in as data. -/
def transcode_handler (lg : F32 → F32) (max_concurrent_streams : ℕ) (session_id : String)
    (request : TranscodeRequest) (avail : ℕ) :
    Except AppError (List (String × String) × TranscodeResponse) × ℕ :=
  let has_filters := (request.audio_filters.map AudioFilters.has_filters).getD false
  let eq_preset := request.audio_filters.bind (fun f => f.eq_preset)
  let speed := request.audio_filters.bind (fun f => f.speed)
  let volume := request.audio_filters.bind (fun f => f.volume)
  match request.validate with
  | .error e => (.error (.Validation e), avail)
  | .ok _ =>
    match tryAcquire avail with
    | none => (.error (.ConcurrencyLimitExceeded max_concurrent_streams), avail)
    | some availHolding =>
      let filter_chain : Option String :=
        if has_filters then some (filters.build_audio_filter_chain lg eq_preset speed volume)
        else none
      let response : TranscodeResponse :=
        ⟨session_id, "processing", request.format.content_type, some "Transcoding started"⟩
      let headers : List (String × String) :=
        [("X-Transcode-Id", session_id),
         ("X-Source-Format", request.format.display),
         ("X-Target-Codec", request.codec.ffmpeg_codec)]
        ++ (match filter_chain with
            | some chain => if chain ≠ "" then [("X-Audio-Filters", chain)] else []
            | none => [])
      (.ok (headers, response), availHolding + 1)

/-- Claim-side reading of a closed numeric range condition on an `f32`
value: the value is an actual number lying between the bounds. -/
def F32.inClosedRange (lo hi : ℚ) : F32 → Prop := fun x => ∃ q, x = .num q ∧ lo ≤ q ∧ q ≤ hi

/-- Claim-side rendering of the FFmpeg argument vector, exactly as the
specification lists it: global flags, input, codec, then the bitrate pair
if and only if the bitrate is positive, sample rate, channels, then the
filter pair if and only if the compiled chain is non-empty, output format,
and the stdout sink token. -/
def ffmpegArgsSpec (p : TranscodeProfile) : List String :=
  ["-hide_banner", "-loglevel", "warning", "-y", "-i", p.source_url,
   "-c:a", p.codec.ffmpeg_codec]
  ++ (if 0 < p.bitrate then ["-b:a", Nat.repr p.bitrate ++ "k"] else [])
  ++ ["-ar", Nat.repr p.sample_rate, "-ac", Nat.repr p.channels]
  ++ (if p.build_audio_filters ≠ "" then ["-af", p.build_audio_filters] else [])
  ++ ["-f", p.format.ffmpeg_format, "pipe:1"]

/-- Claim-side rendering of the effect-filter vector, exactly as the
specification lists it: the EQ expression when a non-flat preset is
present, then the tempo expression when the speed is a number differing
from one by more than 0.001, then the volume expression when the volume's
distance from one is not below 0.001 under the IEEE comparison. -/
def chainSpecParts (lg : F32 → F32) (eq_preset : Option EqPreset)
    (speed volume_level : Option F32) : List String :=
  (match eq_preset with
   | some preset => if preset = .flat then [] else [filters.eq_preset_to_filter preset]
   | none => [])
  ++ (match speed with
      | some s => if ((s.sub (.num 1)).abs).gt (.num (mkRat 1 1000)) then [filters.tempo s]
                  else []
      | none => [])
  ++ (match volume_level with
      | some v => if ((v.sub (.num 1)).abs).lt (.num (mkRat 1 1000)) = false
                  then [filters.volume_factor lg v] else []
      | none => [])

/-- The request replacing every present float field by NaN, leaving all
other fields unchanged. -/
def naNify (r : TranscodeRequest) : TranscodeRequest :=
  { r with
    audio_filters := r.audio_filters.map (fun f =>
      ⟨f.eq_preset, f.speed.map (fun _ => F32.nan), f.volume.map (fun _ => F32.nan)⟩),
    target_loudness := F32.nan,
    fade_in := r.fade_in.map (fun _ => F32.nan),
    fade_out := r.fade_out.map (fun _ => F32.nan) }

/-- A minimal well-formed request: only the required source URL is set;
every optional field is absent and the serde defaults apply. -/
def baseRequest : TranscodeRequest :=
  ⟨"https://example.com/audio.mp3", .opus, none, .libopus, .medium,
   none, none, none, none, false, .num (-16), none, none⟩

example : F32.fmt 4 (.num (mkRat 3 2)) = "1.5000" := by decide
example : F32.fmt 1 (.num (-16)) = "-16.0" := by decide
example : F32.fmt 2 (.num (mkRat 1 2)) = "0.50" := by decide
example : F32.fmt 2 (.num 2) = "2.00" := by decide
example : F32.fmt 4 F32.nan = "NaN" := by decide
example : F32.lt (.num (mkRat 1 3)) (.num (mkRat 1 2)) = true := by decide
example : (F32.sub (.num (mkRat 1001 1000)) (.num 1)).abs = .num (mkRat 1 1000) := by decide

example : filters.tempo (.num (mkRat 3 2)) = "atempo=1.5000" := by decide
example : filters.tempo (.num (mkRat 3 10)) = "atempo=0.5,atempo=0.6000" := by decide
example : filters.tempo (.num 3) = "atempo=2.0,atempo=1.5000" := by decide
example : filters.eq_preset_to_filter .bassBoost
    = "equalizer=f=100:width_type=o:width=1.00:g=6.0" := by decide
example : filters.eq_preset_to_filter .voice
    = "highpass=f=80,equalizer=f=3000:width_type=o:width=1.00:g=3.0" := by decide
example : filters.build_audio_filter_chain (fun _ => .nan) none none none = "" := by decide
example : filters.build_audio_filter_chain (fun _ => .nan) none none (some .nan)
    = "volume=NaNdB" := by decide
example : filters.fade_in (.num 2) = "afade=t=in:st=0:d=2.00" := by decide
example : filters.loudnorm (.num (-16)) = "loudnorm=I=-16.0:TP=-1.5:LRA=11:print_format=none" := by
  decide

example : TranscodeProfile.build_ffmpeg_args
    ⟨"https://example.com/a.mp3", .opus, .libopus, 64, 48000, 2, false, .num (-16), none, none⟩
    = ["-hide_banner", "-loglevel", "warning", "-y", "-i", "https://example.com/a.mp3",
       "-c:a", "libopus", "-b:a", "64k", "-ar", "48000", "-ac", "2", "-f", "ogg", "pipe:1"] := by
  decide

example : TranscodeProfile.build_ffmpeg_args
    ⟨"u", .opus, .libopus, 0, 48000, 1, true, .num (-16), some (.num 2), none⟩
    = ["-hide_banner", "-loglevel", "warning", "-y", "-i", "u", "-c:a", "libopus",
       "-ar", "48000", "-ac", "1",
       "-af", "afade=t=in:st=0:d=2.00,loudnorm=I=-16.0:TP=-1.5:LRA=11:print_format=none",
       "-f", "ogg", "pipe:1"] := by decide



lemma F32.qmul_eq (a b : ℚ) : F32.qmul a b = a * b := by
  rw [F32.qmul, Rat.divInt_eq_div]
  push_cast
  conv_rhs => rw [← Rat.num_div_den a, ← Rat.num_div_den b]
  rw [div_mul_div_comm]

lemma F32.qdiv_two (a : ℚ) : F32.qdiv a 2 = a / 2 := by
  rw [F32.qdiv, Rat.divInt_eq_div]
  push_cast
  simp only [Rat.num_ofNat, Rat.den_ofNat]
  conv_rhs => rw [← Rat.num_div_den a]
  rw [div_div]
  push_cast
  ring_nf

lemma mkRat_half : (mkRat 1 2 : ℚ) = 1 / 2 := by
  rw [Rat.mkRat_eq_divInt, Rat.divInt_eq_div]
  norm_num

lemma str_ne_of_take {n : ℕ} {s t : String} (h : s.data.take n ≠ t.data.take n) : s ≠ t :=
  fun he => h (by rw [he])

lemma data_take_append {n : ℕ} (p r : String) (h : n ≤ p.data.length) :
    (p ++ r).data.take n = p.data.take n := by
  rw [String.data_append, List.take_append_of_le_length h]

lemma take_one_append {p : String} (r : String) {c : Char} (h : p.data.take 1 = [c]) :
    (p ++ r).data.take 1 = [c] := by
  have hlen : 1 ≤ p.data.length := by
    cases hd : p.data with
    | nil => rw [hd] at h; simp at h
    | cons a l => simp [hd]
  rw [data_take_append p r hlen, h]

lemma digitChar_isDigit {n : ℕ} (h : n < 10) : (Nat.digitChar n).isDigit = true := by
  interval_cases n <;> decide

lemma toDigitsCore_isDigit (f : ℕ) :
    ∀ (n : ℕ) (acc : List Char), (∀ c ∈ acc, c.isDigit = true) →
      ∀ c ∈ Nat.toDigitsCore 10 f n acc, c.isDigit = true := by
  induction f with
  | zero => intro n acc hacc c hc; exact hacc c hc
  | succ f ih =>
    intro n acc hacc c hc
    rw [Nat.toDigitsCore] at hc
    have hdig : ∀ c ∈ (Nat.digitChar (n % 10) :: acc), c.isDigit = true := by
      intro c hc
      rcases List.mem_cons.mp hc with h | h
      · subst h; exact digitChar_isDigit (Nat.mod_lt _ (by decide))
      · exact hacc c h
    by_cases hz : n / 10 = 0
    · rw [if_pos hz] at hc
      exact hdig c hc
    · rw [if_neg hz] at hc
      exact ih (n / 10) _ hdig c hc

lemma repr_isDigit (n : ℕ) : ∀ c ∈ (Nat.repr n).data, c.isDigit = true := by
  intro c hc
  have : (Nat.repr n).data = Nat.toDigitsCore 10 (n + 1) n [] := rfl
  rw [this] at hc
  exact toDigitsCore_isDigit (n + 1) n [] (by intro c hc; simp at hc) c hc

lemma repr_ne_of_nondigit {s : String} {c : Char} (hc : c ∈ s.data) (hd : c.isDigit = false)
    (n : ℕ) : Nat.repr n ≠ s := by
  intro he
  have := repr_isDigit n c (he ▸ hc)
  rw [hd] at this
  exact Bool.noConfusion this

example : ∀ n, Nat.repr n ≠ "-b:a" :=
  fun n => repr_ne_of_nondigit (c := '-') (by decide) (by decide) n
example : ∀ n, Nat.repr n ≠ "-af" :=
  fun n => repr_ne_of_nondigit (c := '-') (by decide) (by decide) n

lemma data_take_append2 {n : ℕ} (a b c : String) (h : n ≤ a.data.length) :
    ((a ++ b) ++ c).data.take n = a.data.take n := by
  have h2 : n ≤ (a ++ b).data.length := by
    rw [String.data_append, List.length_append]; omega
  rw [data_take_append (a ++ b) c h2, data_take_append a b h]

lemma data_take_append3 {n : ℕ} (a b c d : String) (h : n ≤ a.data.length) :
    (((a ++ b) ++ c) ++ d).data.take n = a.data.take n := by
  have h3 : n ≤ ((a ++ b) ++ c).data.length := by
    rw [String.data_append, String.data_append, List.length_append, List.length_append]; omega
  rw [data_take_append ((a ++ b) ++ c) d h3, data_take_append2 a b c h]

lemma str_ne_empty_of_take_one {s : String} {c : Char} (h : s.data.take 1 = [c]) : s ≠ "" := by
  intro he
  rw [he] at h
  simp at h

lemma fade_in_take_one (d : F32) : (filters.fade_in d).data.take 1 = ['a'] :=
  take_one_append _ (by decide)

lemma fade_out_take_nine (st dur : F32) :
    (filters.fade_out st dur).data.take 9 = ['a', 'f', 'a', 'd', 'e', '=', 't', '=', 'o'] := by
  show ((("afade=t=out:st=" ++ st.fmt 2) ++ ":d=") ++ dur.fmt 2).data.take 9 = _
  rw [data_take_append3 _ _ _ _ (by decide)]
  decide

lemma fade_in_take_nine (d : F32) :
    (filters.fade_in d).data.take 9 = ['a', 'f', 'a', 'd', 'e', '=', 't', '=', 'i'] := by
  show (("afade=t=in:st=0:d=" ++ d.fmt 2)).data.take 9 = _
  rw [data_take_append _ _ (by decide)]
  decide

lemma loudnorm_take_one (t : F32) : (filters.loudnorm t).data.take 1 = ['l'] := by
  show ((("loudnorm=I=" ++ t.fmt 1) ++ ":TP=-1.5:LRA=11:print_format=none")).data.take 1 = _
  rw [data_take_append2 _ _ _ (by decide)]
  decide

lemma fade_out_take_one (st dur : F32) : (filters.fade_out st dur).data.take 1 = ['a'] := by
  show ((("afade=t=out:st=" ++ st.fmt 2) ++ ":d=") ++ dur.fmt 2).data.take 1 = _
  rw [data_take_append3 _ _ _ _ (by decide)]
  decide

lemma volume_take_one (db : F32) : (filters.volume db).data.take 1 = ['v'] := by
  show (("volume=" ++ db.fmt 1) ++ "dB").data.take 1 = _
  rw [data_take_append2 _ _ _ (by decide)]
  decide

lemma tempo_take_one (f : F32) : (filters.tempo f).data.take 1 = ['a'] := by
  unfold filters.tempo
  split_ifs <;> exact take_one_append _ (by decide)

lemma fade_out_ne_fade_in (st dur d : F32) : filters.fade_out st dur ≠ filters.fade_in d := by
  apply str_ne_of_take (n := 9)
  rw [fade_out_take_nine, fade_in_take_nine]
  decide

lemma fade_out_ne_loudnorm (st dur t : F32) : filters.fade_out st dur ≠ filters.loudnorm t := by
  apply str_ne_of_take (n := 1)
  rw [fade_out_take_one, loudnorm_take_one]
  decide

lemma fade_in_ne_loudnorm (d t : F32) : filters.fade_in d ≠ filters.loudnorm t := by
  apply str_ne_of_take (n := 1)
  rw [fade_in_take_one, loudnorm_take_one]
  decide

lemma filterParts_cases (p : TranscodeProfile) :
    (p.fade_in = none ∧ p.normalize = false ∧ p.filterParts = []) ∨
    (∃ d, p.fade_in = some d ∧ p.normalize = false ∧ p.filterParts = [filters.fade_in d]) ∨
    (p.fade_in = none ∧ p.normalize = true ∧
      p.filterParts = [filters.loudnorm p.target_loudness]) ∨
    (∃ d, p.fade_in = some d ∧ p.normalize = true ∧
      p.filterParts = [filters.fade_in d, filters.loudnorm p.target_loudness]) := by
  rcases hf : p.fade_in with _ | d <;> rcases hn : p.normalize with _ | _ <;>
    simp [TranscodeProfile.filterParts, Id.run, hf, hn]

lemma build_audio_filters_shape (p : TranscodeProfile) :
    p.build_audio_filters = "" ∨ (p.build_audio_filters).data.take 1 = ['a'] ∨
      (p.build_audio_filters).data.take 1 = ['l'] := by
  unfold TranscodeProfile.build_audio_filters
  rcases filterParts_cases p with ⟨-, -, h⟩ | ⟨d, -, -, h⟩ | ⟨-, -, h⟩ | ⟨d, -, -, h⟩ <;> rw [h]
  · left; rfl
  · right; left
    show (filters.fade_in d).data.take 1 = _
    exact fade_in_take_one d
  · right; right
    exact loudnorm_take_one _
  · right; left
    show ((filters.fade_in d ++ ",") ++ filters.loudnorm p.target_loudness).data.take 1 = _
    exact take_one_append _ (take_one_append _ (fade_in_take_one d))

lemma build_audio_filters_ne_flag (p : TranscodeProfile) :
    p.build_audio_filters ≠ "-b:a" ∧ p.build_audio_filters ≠ "-af" := by
  rcases build_audio_filters_shape p with h | h | h
  · rw [h]; exact ⟨by decide, by decide⟩
  · exact ⟨str_ne_of_take (n := 1) (by rw [h]; decide),
      str_ne_of_take (n := 1) (by rw [h]; decide)⟩
  · exact ⟨str_ne_of_take (n := 1) (by rw [h]; decide),
      str_ne_of_take (n := 1) (by rw [h]; decide)⟩

lemma codec_ne_flag (c : AudioCodec) : c.ffmpeg_codec ≠ "-b:a" ∧ c.ffmpeg_codec ≠ "-af" := by
  cases c <;> exact ⟨by decide, by decide⟩

lemma format_ne_flag (f : AudioFormat) : f.ffmpeg_format ≠ "-b:a" ∧ f.ffmpeg_format ≠ "-af" := by
  cases f <;> exact ⟨by decide, by decide⟩

lemma eq_filter_empty_iff (p : EqPreset) : filters.eq_preset_to_filter p = "" ↔ p = .flat := by
  cases p <;> simp [filters.eq_preset_to_filter] <;> decide

lemma volume_ne_empty (db : F32) : filters.volume db ≠ "" :=
  str_ne_empty_of_take_one (volume_take_one db)

lemma tempo_ne_empty (f : F32) : filters.tempo f ≠ "" :=
  str_ne_empty_of_take_one (tempo_take_one f)

lemma volume_factor_empty_iff (lg : F32 → F32) (v : F32) :
    filters.volume_factor lg v = "" ↔ ((v.sub (.num 1)).abs).lt (.num (mkRat 1 1000)) = true := by
  unfold filters.volume_factor
  split_ifs with h
  · simp [h]
  · simpa [h] using volume_ne_empty ((F32.num 20).mul (lg v))

lemma eq_filter_ne_empty {preset : EqPreset} (h : ¬ preset = .flat) :
    filters.eq_preset_to_filter preset ≠ "" :=
  fun he => h ((eq_filter_empty_iff preset).mp he)

lemma volume_factor_ne_empty {lg : F32 → F32} {v : F32}
    (h : ((v.sub (.num 1)).abs).lt (.num (mkRat 1 1000)) = false) :
    filters.volume_factor lg v ≠ "" := by
  intro he
  rw [volume_factor_empty_iff] at he
  rw [he] at h
  exact Bool.noConfusion h

lemma chainParts_eq_spec (lg : F32 → F32) (ep : Option EqPreset) (s v : Option F32) :
    filters.chainParts lg ep s v = chainSpecParts lg ep s v := by
  unfold filters.chainParts chainSpecParts
  rcases ep with _ | preset <;> rcases s with _ | sf <;> rcases v with _ | vf <;>
    simp only [Id.run] <;> (try split_ifs) <;>
    simp_all [eq_filter_empty_iff, volume_factor_empty_iff]

lemma chainParts_nonempty (lg : F32 → F32) (ep : Option EqPreset) (s v : Option F32) :
    ∀ x ∈ filters.chainParts lg ep s v, x ≠ "" := by
  intro x hx
  unfold filters.chainParts at hx
  rcases ep with _ | preset <;> rcases s with _ | sf <;> rcases v with _ | vf <;>
    (try simp only [Id.run] at hx) <;> (try split_ifs at hx) <;>
    (try simp only [Id.bind_eq, Id.pure_eq, List.mem_append, List.mem_singleton,
      List.not_mem_nil, or_false, false_or,
      List.nil_append, List.append_nil, List.mem_cons, or_self] at hx) <;>
    first
      | exact absurd hx (List.not_mem_nil x)
      | (rcases hx with (rfl | rfl) | rfl <;> first | assumption | exact tempo_ne_empty _)

lemma ite_err_ok {c : Prop} [Decidable c] {e : String} {rest : Except String Unit} :
    (if c then Except.error e else rest) = .ok () ↔ ¬c ∧ rest = .ok () := by
  split_ifs with h <;> simp [h]

lemma bitrate_guard_iff (o : Option ℕ) :
    ((match o with
      | some bitrate => decide (bitrate < 8) || decide (512 < bitrate)
      | none => false) = false) ↔ ∀ b, o = some b → 8 ≤ b ∧ b ≤ 512 := by
  cases o <;> simp [Bool.or_eq_false_iff, decide_eq_false_iff_not] <;> (try omega)

lemma sr_guard_iff (o : Option ℕ) :
    ((match o with
      | some sr => !([8000, 12000, 16000, 24000, 44100, 48000, 96000].contains sr)
      | none => false) = false) ↔
      ∀ sr, o = some sr → sr ∈ ([8000, 12000, 16000, 24000, 44100, 48000, 96000] : List ℕ) := by
  cases o <;> simp [List.elem_iff] <;> (try tauto)

lemma ch_guard_iff (o : Option ℕ) :
    ((match o with
      | some ch => decide (ch < 1) || decide (2 < ch)
      | none => false) = false) ↔ ∀ c, o = some c → c = 1 ∨ c = 2 := by
  cases o <;> simp [Bool.or_eq_false_iff, decide_eq_false_iff_not] <;> (try omega)

lemma fade_guard_iff (o : Option F32) :
    ((match o with
      | some fade => fade.lt (.num 0) || fade.gt (.num 30)
      | none => false) = false) ↔
      ∀ x, o = some x → x.lt (.num 0) = false ∧ x.gt (.num 30) = false := by
  cases o <;> simp [Bool.or_eq_false_iff]

lemma speed_guard_iff (o : Option F32) :
    ((match o with
      | some s => s.lt (.num (mkRat 1 2)) || s.gt (.num 2)
      | none => false) = false) ↔
      ∀ s, o = some s → s.lt (.num (mkRat 1 2)) = false ∧ s.gt (.num 2) = false := by
  cases o <;> simp [Bool.or_eq_false_iff]

lemma volume_guard_iff (o : Option F32) :
    ((match o with
      | some v => v.lt (.num 0) || v.gt (.num 2)
      | none => false) = false) ↔
      ∀ v, o = some v → v.lt (.num 0) = false ∧ v.gt (.num 2) = false := by
  cases o <;> simp [Bool.or_eq_false_iff]

lemma except_match_ok (af : Option AudioFilters) (tail : Except String Unit) :
    (match af with
     | some fs =>
       (match fs.validate with
        | .error e => Except.error e
        | .ok _ => tail)
     | none => tail) = .ok () ↔
      ((∀ fs, af = some fs → fs.validate = .ok ()) ∧ tail = .ok ()) := by
  cases af with
  | none => simp
  | some fs =>
    cases h : fs.validate with
    | error e => simp [h]
    | ok u => cases u; simp [h]

lemma filters_validate_ok_iff (fs : AudioFilters) :
    fs.validate = .ok () ↔
      ((∀ s, fs.speed = some s → s.lt (.num (mkRat 1 2)) = false ∧ s.gt (.num 2) = false) ∧
       (∀ v, fs.volume = some v → v.lt (.num 0) = false ∧ v.gt (.num 2) = false)) := by
  unfold AudioFilters.validate
  rw [ite_err_ok, ite_err_ok]
  simp only [Bool.not_eq_true, speed_guard_iff, volume_guard_iff, and_true]

lemma validateTail_ok_iff (r : TranscodeRequest) :
    r.validateTail = .ok () ↔
      ((∀ x, r.fade_in = some x → x.lt (.num 0) = false ∧ x.gt (.num 30) = false) ∧
       (∀ x, r.fade_out = some x → x.lt (.num 0) = false ∧ x.gt (.num 30) = false) ∧
       (r.target_loudness.lt (.num (-70)) = false ∧ r.target_loudness.gt (.num 0) = false)) := by
  unfold TranscodeRequest.validateTail
  rw [ite_err_ok, ite_err_ok, ite_err_ok]
  simp only [Bool.not_eq_true, fade_guard_iff, Bool.or_eq_false_iff, and_true]

lemma validate_ok_iff (r : TranscodeRequest) :
    r.validate = .ok () ↔
      (r.source_url ≠ "" ∧
       (∀ b, r.bitrate = some b → 8 ≤ b ∧ b ≤ 512) ∧
       (∀ sr, r.sample_rate = some sr →
          sr ∈ ([8000, 12000, 16000, 24000, 44100, 48000, 96000] : List ℕ)) ∧
       (∀ ch, r.channels = some ch → ch = 1 ∨ ch = 2) ∧
       (∀ fs, r.audio_filters = some fs →
          (∀ s, fs.speed = some s → s.lt (.num (mkRat 1 2)) = false ∧ s.gt (.num 2) = false) ∧
          (∀ v, fs.volume = some v → v.lt (.num 0) = false ∧ v.gt (.num 2) = false)) ∧
       (∀ x, r.fade_in = some x → x.lt (.num 0) = false ∧ x.gt (.num 30) = false) ∧
       (∀ x, r.fade_out = some x → x.lt (.num 0) = false ∧ x.gt (.num 30) = false) ∧
       (r.target_loudness.lt (.num (-70)) = false ∧ r.target_loudness.gt (.num 0) = false)) := by
  unfold TranscodeRequest.validate
  rw [ite_err_ok, ite_err_ok, ite_err_ok, ite_err_ok, except_match_ok, validateTail_ok_iff]
  simp only [Bool.not_eq_true, bitrate_guard_iff, sr_guard_iff, ch_guard_iff,
    filters_validate_ok_iff, ne_eq, and_assoc]


/-- C5: for every quality tier and codec, bitrate_for_codec returns the
fixed table constant — 32/64/128/256 for libopus, 64/128/192/320 for
libmp3lame, 48/96/160/256 for aac, and 0 for pcm_s16le and flac at every
tier. -/
theorem c5_bitrate_table :
    AudioQuality.low.bitrate_for_codec .libopus = 32 ∧
    AudioQuality.medium.bitrate_for_codec .libopus = 64 ∧
    AudioQuality.high.bitrate_for_codec .libopus = 128 ∧
    AudioQuality.lossless.bitrate_for_codec .libopus = 256 ∧
    AudioQuality.low.bitrate_for_codec .libmp3lame = 64 ∧
    AudioQuality.medium.bitrate_for_codec .libmp3lame = 128 ∧
    AudioQuality.high.bitrate_for_codec .libmp3lame = 192 ∧
    AudioQuality.lossless.bitrate_for_codec .libmp3lame = 320 ∧
    AudioQuality.low.bitrate_for_codec .aac = 48 ∧
    AudioQuality.medium.bitrate_for_codec .aac = 96 ∧
    AudioQuality.high.bitrate_for_codec .aac = 160 ∧
    AudioQuality.lossless.bitrate_for_codec .aac = 256 ∧
    (∀ q : AudioQuality, q.bitrate_for_codec .pcmS16le = 0 ∧ q.bitrate_for_codec .flac = 0) :=
  ⟨rfl, rfl, rfl, rfl, rfl, rfl, rfl, rfl, rfl, rfl, rfl, rfl,
   fun q => by cases q <;> exact ⟨rfl, rfl⟩⟩

/-- C6: from_request resolves bitrate, sample rate and channel count
independently — the request value when present, otherwise the
quality-and-codec bitrate table, the quality sample-rate default
(24000/44100/48000/48000), or 2 channels — and copies every other field
unchanged. -/
theorem c6_from_request (req : TranscodeRequest) :
    (TranscodeProfile.from_request req).bitrate
        = req.bitrate.getD (req.quality.bitrate_for_codec req.codec) ∧
    (TranscodeProfile.from_request req).sample_rate
        = req.sample_rate.getD req.quality.sample_rate ∧
    (TranscodeProfile.from_request req).channels = req.channels.getD 2 ∧
    AudioQuality.low.sample_rate = 24000 ∧
    AudioQuality.medium.sample_rate = 44100 ∧
    AudioQuality.high.sample_rate = 48000 ∧
    AudioQuality.lossless.sample_rate = 48000 ∧
    (TranscodeProfile.from_request req).source_url = req.source_url ∧
    (TranscodeProfile.from_request req).format = req.format ∧
    (TranscodeProfile.from_request req).codec = req.codec ∧
    (TranscodeProfile.from_request req).normalize = req.normalize ∧
    (TranscodeProfile.from_request req).target_loudness = req.target_loudness ∧
    (TranscodeProfile.from_request req).fade_in = req.fade_in ∧
    (TranscodeProfile.from_request req).fade_out = req.fade_out :=
  ⟨rfl, rfl, rfl, rfl, rfl, rfl, rfl, rfl, rfl, rfl, rfl, rfl, rfl, rfl⟩

/-- C7: every error variant maps to exactly the documented HTTP status and
machine-readable code; 4xx variants echo the violated-rule message, while
Ffmpeg, Io and Internal map to fixed generic messages independent of the
internal detail, and the concurrency message embeds the configured
limit. -/
theorem c7_error_mapping (m : String) (limit : ℕ) :
    (AppError.Validation m).into_response = (400, ⟨"VALIDATION_ERROR", m⟩) ∧
    (AppError.UnsupportedFormat m).into_response = (400, ⟨"UNSUPPORTED_FORMAT", m⟩) ∧
    (AppError.SourceUnavailable m).into_response = (400, ⟨"SOURCE_UNAVAILABLE", m⟩) ∧
    (AppError.FilterInvalid m).into_response = (400, ⟨"FILTER_INVALID", m⟩) ∧
    (AppError.ConcurrencyLimitExceeded limit).into_response
        = (503, ⟨"CONCURRENCY_LIMIT_EXCEEDED",
            "Server is at capacity. Maximum " ++ Nat.repr limit
              ++ " concurrent streams allowed."⟩) ∧
    (AppError.Ffmpeg m).into_response = (500, ⟨"FFMPEG_ERROR", "Transcoding failed"⟩) ∧
    (AppError.Io m).into_response = (500, ⟨"IO_ERROR", "IO operation failed"⟩) ∧
    (AppError.Timeout m).into_response = (504, ⟨"TIMEOUT", m⟩) ∧
    (AppError.Internal m).into_response = (500, ⟨"INTERNAL_ERROR", "Internal server error"⟩) :=
  ⟨rfl, rfl, rfl, rfl, rfl, rfl, rfl, rfl, rfl⟩

/-- C9: one invocation of the transcode handler, on every path — validation
failure, admission rejection, success — returns the semaphore's
available-permit count to its initial value: the permit taken by
try_acquire is dropped inside the handler body itself, before the response
is returned. -/
theorem c9_handler_restores_permits (lg : F32 → F32) (max_concurrent_streams : ℕ)
    (session_id : String) (request : TranscodeRequest) (avail : ℕ) :
    (transcode_handler lg max_concurrent_streams session_id request avail).2 = avail := by
  unfold transcode_handler
  rcases hv : request.validate with e | u
  · rfl
  · cases u
    unfold tryAcquire
    split_ifs with h
    · rfl
    · simp
      omega

/-- C2 (amended): validate returns Ok exactly when the source URL is
non-empty, bitrate when present lies in 8..512, sample rate when present
is one of the seven allowed values, channels when present is 1 or 2, and
every float-valued bound (speed 0.5..2.0, volume 0.0..2.0, fades 0..30,
target loudness -70..0) holds in the IEEE comparison sense — the value is
neither below the lower bound nor above the upper bound, which a NaN
vacuously satisfies. -/
theorem c2_validate_boundaries (r : TranscodeRequest) :
    r.validate = .ok () ↔
      (r.source_url ≠ "" ∧
       (∀ b, r.bitrate = some b → 8 ≤ b ∧ b ≤ 512) ∧
       (∀ sr, r.sample_rate = some sr →
          sr ∈ ([8000, 12000, 16000, 24000, 44100, 48000, 96000] : List ℕ)) ∧
       (∀ ch, r.channels = some ch → ch = 1 ∨ ch = 2) ∧
       (∀ fs, r.audio_filters = some fs →
          (∀ s, fs.speed = some s → s.lt (.num (mkRat 1 2)) = false ∧ s.gt (.num 2) = false) ∧
          (∀ v, fs.volume = some v → v.lt (.num 0) = false ∧ v.gt (.num 2) = false)) ∧
       (∀ x, r.fade_in = some x → x.lt (.num 0) = false ∧ x.gt (.num 30) = false) ∧
       (∀ x, r.fade_out = some x → x.lt (.num 0) = false ∧ x.gt (.num 30) = false) ∧
       (r.target_loudness.lt (.num (-70)) = false ∧ r.target_loudness.gt (.num 0) = false)) :=
  validate_ok_iff r

/-- C2 counterexample: a request whose target_loudness is NaN validates
Ok, yet NaN does not lie in the interval -70..0, so "Ok if and only if
target_loudness is in [-70, 0]" fails as stated. -/
theorem c2_counterexample :
    ({ baseRequest with target_loudness := F32.nan } : TranscodeRequest).validate = .ok () ∧
    ¬ F32.inClosedRange (-70) 0
        ({ baseRequest with target_loudness := F32.nan } : TranscodeRequest).target_loudness := by
  constructor
  · rfl
  · rintro ⟨q, hq, -, -⟩
    exact F32.noConfusion hq

/-- C2 witness: the amended characterization applied at a request with
bitrate 7 shows it is rejected; and all the boundary cases the claim lists
evaluate as stated — bitrate 8 and 512 accepted, 7 and 513 rejected,
sample rate 44100 accepted, 22050 rejected, channels 1 and 2 accepted, 0
and 3 rejected, speed 0.5 and 2.0 accepted, 0.49 and 2.01 rejected,
target loudness -70 and 0 accepted, -71 and 0.5 rejected. -/
theorem c2_witness :
    ({ baseRequest with bitrate := some 7 } : TranscodeRequest).validate ≠ .ok () ∧
    ({ baseRequest with bitrate := some 8 } : TranscodeRequest).validate = .ok () ∧
    ({ baseRequest with bitrate := some 512 } : TranscodeRequest).validate = .ok () ∧
    ({ baseRequest with bitrate := some 513 } : TranscodeRequest).validate ≠ .ok () ∧
    ({ baseRequest with sample_rate := some 44100 } : TranscodeRequest).validate = .ok () ∧
    ({ baseRequest with sample_rate := some 22050 } : TranscodeRequest).validate ≠ .ok () ∧
    ({ baseRequest with channels := some 1 } : TranscodeRequest).validate = .ok () ∧
    ({ baseRequest with channels := some 2 } : TranscodeRequest).validate = .ok () ∧
    ({ baseRequest with channels := some 0 } : TranscodeRequest).validate ≠ .ok () ∧
    ({ baseRequest with channels := some 3 } : TranscodeRequest).validate ≠ .ok () ∧
    ({ baseRequest with
        audio_filters := some ⟨none, some (.num (mkRat 1 2)), none⟩ } :
        TranscodeRequest).validate = .ok () ∧
    ({ baseRequest with
        audio_filters := some ⟨none, some (.num 2), none⟩ } :
        TranscodeRequest).validate = .ok () ∧
    ({ baseRequest with
        audio_filters := some ⟨none, some (.num (mkRat 49 100)), none⟩ } :
        TranscodeRequest).validate ≠ .ok () ∧
    ({ baseRequest with
        audio_filters := some ⟨none, some (.num (mkRat 201 100)), none⟩ } :
        TranscodeRequest).validate ≠ .ok () ∧
    ({ baseRequest with target_loudness := .num (-70) } : TranscodeRequest).validate = .ok () ∧
    ({ baseRequest with target_loudness := .num 0 } : TranscodeRequest).validate = .ok () ∧
    ({ baseRequest with target_loudness := .num (-71) } : TranscodeRequest).validate ≠ .ok () ∧
    ({ baseRequest with target_loudness := .num (mkRat 1 2) } :
        TranscodeRequest).validate ≠ .ok () :=
  ⟨fun h => absurd (((c2_validate_boundaries _).mp h).2.1 7 rfl).1 (by decide),
   rfl, rfl, fun h => Except.noConfusion h, rfl, fun h => Except.noConfusion h,
   rfl, rfl, fun h => Except.noConfusion h, fun h => Except.noConfusion h,
   rfl, rfl, fun h => Except.noConfusion h, fun h => Except.noConfusion h,
   rfl, rfl, fun h => Except.noConfusion h, fun h => Except.noConfusion h⟩

/-- C10: replacing every present float field of an Ok-validating request
(speed, volume, target loudness, fades) by NaN still validates Ok, because
each range check compares with IEEE semantics and every comparison with
NaN is false; the NaN request then flows on into profile building, whose
resolved profile carries the NaN target loudness. -/
theorem c10_nan_accepted (r : TranscodeRequest) (h : r.validate = .ok ()) :
    (naNify r).validate = .ok () ∧
    (TranscodeProfile.from_request (naNify r)).target_loudness = F32.nan ∧
    (naNify r).target_loudness = F32.nan := by
  refine ⟨?_, rfl, rfl⟩
  rw [validate_ok_iff] at h ⊢
  obtain ⟨h1, h2, h3, h4, -, -, -, -⟩ := h
  refine ⟨h1, h2, h3, h4, ?_, ?_, ?_, rfl, rfl⟩
  · intro fs hfs
    rcases hmap : r.audio_filters with _ | fs0
    · rw [show (naNify r).audio_filters = r.audio_filters.map _ from rfl, hmap] at hfs
      exact Option.noConfusion hfs
    · rw [show (naNify r).audio_filters = r.audio_filters.map _ from rfl, hmap] at hfs
      obtain rfl : _ = fs := Option.some.inj hfs
      constructor
      · intro s hs
        rcases hs0 : fs0.speed with _ | s0
        · rw [show (⟨fs0.eq_preset, fs0.speed.map fun _ => F32.nan,
            fs0.volume.map fun _ => F32.nan⟩ : AudioFilters).speed
              = fs0.speed.map (fun _ => F32.nan) from rfl, hs0] at hs
          exact Option.noConfusion hs
        · rw [show (⟨fs0.eq_preset, fs0.speed.map fun _ => F32.nan,
            fs0.volume.map fun _ => F32.nan⟩ : AudioFilters).speed
              = fs0.speed.map (fun _ => F32.nan) from rfl, hs0] at hs
          obtain rfl : F32.nan = s := Option.some.inj hs
          exact ⟨rfl, rfl⟩
      · intro v hv
        rcases hv0 : fs0.volume with _ | v0
        · rw [show (⟨fs0.eq_preset, fs0.speed.map fun _ => F32.nan,
            fs0.volume.map fun _ => F32.nan⟩ : AudioFilters).volume
              = fs0.volume.map (fun _ => F32.nan) from rfl, hv0] at hv
          exact Option.noConfusion hv
        · rw [show (⟨fs0.eq_preset, fs0.speed.map fun _ => F32.nan,
            fs0.volume.map fun _ => F32.nan⟩ : AudioFilters).volume
              = fs0.volume.map (fun _ => F32.nan) from rfl, hv0] at hv
          obtain rfl : F32.nan = v := Option.some.inj hv
          exact ⟨rfl, rfl⟩
  · intro x hx
    rcases hfi : r.fade_in with _ | f0
    · rw [show (naNify r).fade_in = r.fade_in.map _ from rfl, hfi] at hx
      exact Option.noConfusion hx
    · rw [show (naNify r).fade_in = r.fade_in.map _ from rfl, hfi] at hx
      obtain rfl : F32.nan = x := Option.some.inj hx
      exact ⟨rfl, rfl⟩
  · intro x hx
    rcases hfo : r.fade_out with _ | f0
    · rw [show (naNify r).fade_out = r.fade_out.map _ from rfl, hfo] at hx
      exact Option.noConfusion hx
    · rw [show (naNify r).fade_out = r.fade_out.map _ from rfl, hfo] at hx
      obtain rfl : F32.nan = x := Option.some.inj hx
      exact ⟨rfl, rfl⟩

/-- C10 witness: the NaN-acceptance theorem applied to a concrete request
carrying a speed, a volume, both fades and a target loudness. -/
theorem c10_witness :
    (naNify { baseRequest with
        audio_filters := some ⟨none, some (.num 1), some (.num 1)⟩,
        fade_in := some (.num 2), fade_out := some (.num 2) }).validate = .ok () ∧
    (TranscodeProfile.from_request (naNify { baseRequest with
        audio_filters := some ⟨none, some (.num 1), some (.num 1)⟩,
        fade_in := some (.num 2), fade_out := some (.num 2) })).target_loudness = F32.nan ∧
    (naNify { baseRequest with
        audio_filters := some ⟨none, some (.num 1), some (.num 1)⟩,
        fade_in := some (.num 2), fade_out := some (.num 2) }).target_loudness = F32.nan :=
  c10_nan_accepted _ (by rfl)


/-- C3 (amended): the compiled effect chain is the comma join of, in this
fixed order, the EQ expression exactly when a non-flat preset is present,
the tempo expression exactly when the speed differs from 1.0 by more than
0.001 under the IEEE comparison, and the volume expression exactly when
the volume's distance from 1.0 is not below 0.001 under the IEEE
comparison (so a NaN volume also emits a filter); with no applicable
filter the chain is the empty string. -/
theorem c3_chain_structure (lg : F32 → F32) (ep : Option EqPreset) (s v : Option F32) :
    filters.build_audio_filter_chain lg ep s v = filters.joinComma (chainSpecParts lg ep s v) := by
  unfold filters.build_audio_filter_chain filters.chain
  rw [List.filter_eq_self.mpr, chainParts_eq_spec]
  intro a ha
  simpa using chainParts_nonempty lg ep s v a ha

/-- C3 counterexample: with volume NaN the volume expression does not
"differ from 1.0 by more than 0.001" — the difference is NaN and the IEEE
comparison is false — yet the code emits a volume filter, so the chain is
not empty as the claim would require. -/
theorem c3_counterexample :
    ((F32.nan.sub (.num 1)).abs).gt (.num (mkRat 1 1000)) = false ∧
    (F32.nan.sub (.num 1)).abs = F32.nan ∧
    filters.build_audio_filter_chain (fun _ => F32.nan) none none (some F32.nan)
      = "volume=NaNdB" :=
  ⟨rfl, rfl, by decide⟩

/-- C3 witness: the amended chain equation evaluated at a bass-boost
preset, speed 1.25 and volume 2.0 (log10 2 supplied as 0.30103) yields the
EQ, tempo and volume expressions comma-joined in that order. -/
theorem c3_witness :
    filters.build_audio_filter_chain (fun _ => .num (mkRat 30103 100000))
        (some .bassBoost) (some (.num (mkRat 5 4))) (some (.num 2))
      = "equalizer=f=100:width_type=o:width=1.00:g=6.0,atempo=1.2500,volume=6.0dB" :=
  (c3_chain_structure (fun _ => .num (mkRat 30103 100000))
      (some .bassBoost) (some (.num (mkRat 5 4))) (some (.num 2))).trans (by decide)

/-- C4: for a speed factor in 0.5..2.0 the tempo filter is the single
expression atempo=f with f formatted to 4 decimals; below 0.5 it is the
chain atempo=0.5,atempo=g with g = max(f*2, 0.5); above 2.0 it is
atempo=2.0,atempo=g with g = min(f/2, 2.0); in both decomposed cases the
second stage g lies back inside 0.5..2.0. -/
theorem c4_tempo (q : ℚ) :
    (mkRat 1 2 ≤ q → q ≤ 2 → filters.tempo (.num q) = "atempo=" ++ F32.fmt 4 (.num q)) ∧
    (q < mkRat 1 2 →
      filters.tempo (.num q)
          = "atempo=0.5,atempo="
            ++ F32.fmt 4 (((F32.num q).mul (.num 2)).fmax (.num (mkRat 1 2))) ∧
      ∃ g, ((F32.num q).mul (.num 2)).fmax (.num (mkRat 1 2)) = .num g ∧
        mkRat 1 2 ≤ g ∧ g ≤ 2) ∧
    (2 < q →
      filters.tempo (.num q)
          = "atempo=2.0,atempo=" ++ F32.fmt 4 (((F32.num q).div (.num 2)).fmin (.num 2)) ∧
      ∃ g, ((F32.num q).div (.num 2)).fmin (.num 2) = .num g ∧
        mkRat 1 2 ≤ g ∧ g ≤ 2) := by
  refine ⟨fun h1 h2 => ?_, fun h => ⟨?_, ?_⟩, fun h => ⟨?_, ?_⟩⟩
  · unfold filters.tempo
    rw [if_neg, if_neg]
    · show ¬ F32.gt (.num q) (.num 2) = true
      simp [F32.gt, F32.lt]
      exact h2
    · show ¬ F32.lt (.num q) (.num (mkRat 1 2)) = true
      simp [F32.lt]
      exact h1
  · unfold filters.tempo
    rw [if_pos]
    show F32.lt (.num q) (.num (mkRat 1 2)) = true
    simp [F32.lt]
    exact h
  · refine ⟨max (F32.qmul q 2) (mkRat 1 2), rfl, le_max_right _ _, max_le ?_ ?_⟩
    · rw [F32.qmul_eq, mkRat_half] at *
      linarith
    · rw [mkRat_half]
      norm_num
  · unfold filters.tempo
    rw [if_neg, if_pos]
    · show F32.gt (.num q) (.num 2) = true
      simp [F32.gt, F32.lt]
      exact h
    · show ¬ F32.lt (.num q) (.num (mkRat 1 2)) = true
      simp [F32.lt]
      rw [mkRat_half]
      linarith
  · refine ⟨min (F32.qdiv q 2) 2, rfl, le_min ?_ ?_, min_le_right _ _⟩
    · rw [F32.qdiv_two, mkRat_half]
      linarith
    · rw [mkRat_half]
      norm_num

/-- C4 witness: the tempo theorem applied at 1.5 (in range), 0.3 (below,
decomposed with first stage exactly 0.5) and 3 (above, decomposed with
first stage exactly 2.0). -/
theorem c4_tempo_witness :
    ((mkRat 1 2 : ℚ) ≤ mkRat 3 2 ∧ (mkRat 3 2 : ℚ) ≤ 2 ∧
      filters.tempo (.num (mkRat 3 2)) = "atempo=1.5000") ∧
    ((mkRat 3 10 : ℚ) < mkRat 1 2 ∧
      filters.tempo (.num (mkRat 3 10)) = "atempo=0.5,atempo=0.6000") ∧
    ((2 : ℚ) < 3 ∧ filters.tempo (.num 3) = "atempo=2.0,atempo=1.5000") := by
  refine ⟨⟨by decide, by decide, ?_⟩, ⟨by decide, ?_⟩, ⟨by decide, ?_⟩⟩
  · exact ((c4_tempo (mkRat 3 2)).1 (by decide) (by decide)).trans (by decide)
  · exact (((c4_tempo (mkRat 3 10)).2.1 (by decide)).1).trans (by decide)
  · exact (((c4_tempo 3).2.2 (by decide)).1).trans (by decide)


lemma repr_append_k_ne (n : ℕ) : Nat.repr n ++ "k" ≠ "-af" := by
  intro h
  have hd := congrArg String.data h
  rw [String.data_append] at hd
  rcases he : (Nat.repr n).data with _ | ⟨c, l⟩
  · rw [he] at hd
    simp at hd
  · rw [he] at hd
    have hc : c = '-' := by
      have ht := congrArg (List.take 1) hd
      rw [List.cons_append] at ht
      simp at ht
      exact ht
    have hdig := repr_isDigit n c (by rw [he]; exact List.mem_cons_self c l)
    rw [hc] at hdig
    exact absurd hdig (by decide)

/-- C8: the profile's compiled filter chain never contains a fade-out
expression and the argument vector is independent of the fade_out field;
the chain's parts contain the fade-in expression (start time 0, given
duration) exactly when fade_in is present and the loudness-normalization
expression with the profile's target exactly when normalize is true. -/
theorem c8_fade_out_unwired :
    (∀ (p : TranscodeProfile) (x : Option F32),
        TranscodeProfile.build_ffmpeg_args { p with fade_out := x } = p.build_ffmpeg_args) ∧
    (∀ (p : TranscodeProfile) (st dur : F32), filters.fade_out st dur ∉ p.filterParts) ∧
    (∀ p : TranscodeProfile, p.build_audio_filters = filters.joinComma p.filterParts) ∧
    (∀ (p : TranscodeProfile) (d : F32),
        p.fade_in = some d → filters.fade_in d ∈ p.filterParts) ∧
    (∀ p : TranscodeProfile, p.fade_in = none → ∀ d, filters.fade_in d ∉ p.filterParts) ∧
    (∀ p : TranscodeProfile, p.normalize = true →
        filters.loudnorm p.target_loudness ∈ p.filterParts) ∧
    (∀ p : TranscodeProfile, p.normalize = false →
        ∀ t, filters.loudnorm t ∉ p.filterParts) := by
  refine ⟨fun p x => rfl, ?_, fun p => rfl, ?_, ?_, ?_, ?_⟩
  · intro p st dur hmem
    rcases filterParts_cases p with ⟨-, -, h⟩ | ⟨d, -, -, h⟩ | ⟨-, -, h⟩ | ⟨d, -, -, h⟩ <;>
      rw [h] at hmem <;>
      simp only [List.not_mem_nil, List.mem_singleton, List.mem_cons, or_false] at hmem <;>
      first
        | exact absurd hmem (fade_out_ne_fade_in st dur _)
        | exact absurd hmem (fade_out_ne_loudnorm st dur _)
        | (rcases hmem with hmem | hmem
           · exact absurd hmem (fade_out_ne_fade_in st dur _)
           · exact absurd hmem (fade_out_ne_loudnorm st dur _))
  · intro p d hd
    rcases filterParts_cases p with ⟨hf, -, h⟩ | ⟨d', hf, -, h⟩ | ⟨hf, -, h⟩ | ⟨d', hf, -, h⟩ <;>
      rw [h]
    · rw [hd] at hf; exact Option.noConfusion hf
    · rw [hd] at hf
      obtain rfl := Option.some.inj hf
      exact List.mem_singleton.mpr rfl
    · rw [hd] at hf; exact Option.noConfusion hf
    · rw [hd] at hf
      obtain rfl := Option.some.inj hf
      exact List.mem_cons_self _ _
  · intro p hf d hmem
    rcases filterParts_cases p with ⟨-, -, h⟩ | ⟨d', hf', -, h⟩ | ⟨-, -, h⟩ | ⟨d', hf', -, h⟩ <;>
      rw [h] at hmem
    · exact absurd hmem (List.not_mem_nil _)
    · rw [hf] at hf'; exact Option.noConfusion hf'
    · exact absurd (List.mem_singleton.mp hmem) (fade_in_ne_loudnorm d _)
    · rw [hf] at hf'; exact Option.noConfusion hf'
  · intro p hn
    rcases filterParts_cases p with ⟨-, hn', h⟩ | ⟨d', -, hn', h⟩ | ⟨-, -, h⟩ | ⟨d', -, -, h⟩ <;>
      rw [h]
    · rw [hn] at hn'; exact Bool.noConfusion hn'
    · rw [hn] at hn'; exact Bool.noConfusion hn'
    · exact List.mem_singleton.mpr rfl
    · exact List.mem_cons_of_mem _ (List.mem_singleton.mpr rfl)
  · intro p hn t hmem
    rcases filterParts_cases p with ⟨-, -, h⟩ | ⟨d', -, -, h⟩ | ⟨-, hn', h⟩ | ⟨d', -, hn', h⟩ <;>
      rw [h] at hmem
    · exact absurd hmem (List.not_mem_nil _)
    · exact absurd (List.mem_singleton.mp hmem).symm (fade_in_ne_loudnorm d' t)
    · rw [hn] at hn'; exact Bool.noConfusion hn'
    · rw [hn] at hn'; exact Bool.noConfusion hn'

/-- C8 witness: for a profile with a 2 second fade-in, normalization at
-16 LUFS and no fade-out, changing fade_out to 5 seconds leaves the
argument vector unchanged, the parts contain the fade-in and loudnorm
expressions, and a fade-out expression is absent. -/
theorem c8_witness :
    TranscodeProfile.build_ffmpeg_args
        { (⟨"u", .opus, .libopus, 64, 48000, 2, true, .num (-16), some (.num 2), none⟩ :
            TranscodeProfile) with fade_out := some (.num 5) }
      = TranscodeProfile.build_ffmpeg_args
          ⟨"u", .opus, .libopus, 64, 48000, 2, true, .num (-16), some (.num 2), none⟩ ∧
    filters.fade_in (.num 2) ∈ TranscodeProfile.filterParts
        ⟨"u", .opus, .libopus, 64, 48000, 2, true, .num (-16), some (.num 2), none⟩ ∧
    filters.fade_out (.num 0) (.num 5) ∉ TranscodeProfile.filterParts
        ⟨"u", .opus, .libopus, 64, 48000, 2, true, .num (-16), some (.num 2), none⟩ ∧
    filters.loudnorm (.num (-16)) ∈ TranscodeProfile.filterParts
        ⟨"u", .opus, .libopus, 64, 48000, 2, true, .num (-16), some (.num 2), none⟩ :=
  ⟨c8_fade_out_unwired.1 _ _,
   c8_fade_out_unwired.2.2.2.1 _ _ rfl,
   c8_fade_out_unwired.2.1 _ _ _,
   c8_fade_out_unwired.2.2.2.2.2.1 _ rfl⟩

lemma ffmpeg_args_eq_spec (p : TranscodeProfile) : p.build_ffmpeg_args = ffmpegArgsSpec p := by
  unfold TranscodeProfile.build_ffmpeg_args ffmpegArgsSpec
  simp only [Id.run, Id.bind_eq, Id.pure_eq]
  split_ifs <;> simp [List.append_assoc]

/-- C1 (amended): the argument vector is exactly the documented sequence —
global flags, input URL, codec, the bitrate pair only when bitrate is
positive, sample rate, channels, the filter pair only when the chain is
non-empty, format, stdout sink; moreover when bitrate = 0 the flag -b:a
occurs nowhere in the vector provided the source URL is not itself the
literal string -b:a, and when the chain is empty -af occurs nowhere
provided the source URL is not the literal -af. -/
theorem c1_ffmpeg_args (p : TranscodeProfile) :
    p.build_ffmpeg_args = ffmpegArgsSpec p ∧
    (p.bitrate = 0 → p.source_url ≠ "-b:a" → "-b:a" ∉ p.build_ffmpeg_args) ∧
    (p.build_audio_filters = "" → p.source_url ≠ "-af" → "-af" ∉ p.build_ffmpeg_args) := by
  refine ⟨ffmpeg_args_eq_spec p, ?_, ?_⟩
  · intro hb hurl hmem
    have h1 : "-b:a" ≠ Nat.repr p.sample_rate :=
      fun h => repr_ne_of_nondigit (c := '-') (by decide) (by decide) p.sample_rate h.symm
    have h2 : "-b:a" ≠ Nat.repr p.channels :=
      fun h => repr_ne_of_nondigit (c := '-') (by decide) (by decide) p.channels h.symm
    have h3 : "-b:a" ≠ p.codec.ffmpeg_codec := fun h => (codec_ne_flag p.codec).1 h.symm
    have h4 : "-b:a" ≠ p.format.ffmpeg_format := fun h => (format_ne_flag p.format).1 h.symm
    have h5 : "-b:a" ≠ p.build_audio_filters :=
      fun h => (build_audio_filters_ne_flag p).1 h.symm
    have h6 : "-b:a" ≠ p.source_url := fun h => hurl h.symm
    rw [ffmpeg_args_eq_spec] at hmem
    unfold ffmpegArgsSpec at hmem
    rw [hb, if_neg (by omega : ¬ (0 : ℕ) < 0)] at hmem
    split_ifs at hmem <;>
      simp +decide [h1, h2, h3, h4, h5, h6] at hmem
  · intro hch hurl hmem
    have h1 : "-af" ≠ Nat.repr p.sample_rate :=
      fun h => repr_ne_of_nondigit (c := '-') (by decide) (by decide) p.sample_rate h.symm
    have h2 : "-af" ≠ Nat.repr p.channels :=
      fun h => repr_ne_of_nondigit (c := '-') (by decide) (by decide) p.channels h.symm
    have h3 : "-af" ≠ p.codec.ffmpeg_codec := fun h => (codec_ne_flag p.codec).2 h.symm
    have h4 : "-af" ≠ p.format.ffmpeg_format := fun h => (format_ne_flag p.format).2 h.symm
    have h6 : "-af" ≠ p.source_url := fun h => hurl h.symm
    have h7 : "-af" ≠ Nat.repr p.bitrate ++ "k" := fun h => repr_append_k_ne p.bitrate h.symm
    rw [ffmpeg_args_eq_spec] at hmem
    unfold ffmpegArgsSpec at hmem
    rw [hch] at hmem
    split_ifs at hmem <;>
      first
        | exact absurd rfl ‹("" : String) ≠ ""›
        | simp +decide [h1, h2, h3, h4, h6, h7] at hmem

/-- C1 counterexample: a profile whose source URL is the literal string
-b:a and whose bitrate is 0 still has -b:a in the vector (as the copied
input URL), refuting "when bitrate = 0, -b:a appears nowhere in the
vector" as stated. -/
theorem c1_counterexample :
    (⟨"-b:a", .opus, .libopus, 0, 48000, 2, false, .num (-16), none, none⟩ :
        TranscodeProfile).bitrate = 0 ∧
    "-b:a" ∈ TranscodeProfile.build_ffmpeg_args
        ⟨"-b:a", .opus, .libopus, 0, 48000, 2, false, .num (-16), none, none⟩ :=
  ⟨rfl, by decide⟩

/-- C1 witness: for a concrete zero-bitrate, no-filter profile with an
ordinary URL, the amended theorem yields that neither -b:a nor -af occurs
in the vector. -/
theorem c1_witness :
    "-b:a" ∉ TranscodeProfile.build_ffmpeg_args
        ⟨"u", .opus, .libopus, 0, 48000, 2, false, .num (-16), none, none⟩ ∧
    "-af" ∉ TranscodeProfile.build_ffmpeg_args
        ⟨"u", .opus, .libopus, 0, 48000, 2, false, .num (-16), none, none⟩ :=
  ⟨(c1_ffmpeg_args _).2.1 rfl (by decide), (c1_ffmpeg_args _).2.2 rfl (by decide)⟩
